import Mathlib

/-!
Verification of the StreamingService media-delivery and progress pipeline.

This file gives a shallow embedding, in Lean, of the range-streaming,
signed-URL, and progress read/write/sync logic of the repository
(`app.py`, `url_signer.py`, `progress_sync_worker.py`, `cache_service.py`)
and proves the specification's claims about it.

Files are byte lists (`List Nat`); the catalog lookup, the on-disk
filesystem, the cache and the durable stores — all external collaborators —
are passed in as explicit parameters or recorded as effect traces.
-/

namespace StreamingService

/-! ### Models of the Python string primitives used by the code

The range-parsing code calls `str.replace`, `str.split` and `int(...)`.
These are re-implemented here with structural recursion (fuelled where
needed) so that every definition evaluates inside the kernel.
-/

/-- Model of Python `str.replace(pat, rep)` on character lists: replaces every
(non-overlapping, leftmost-first) occurrence of `pat`.  The fuel argument is
always instantiated with the length of the scanned list, which bounds the
number of recursive steps whenever `pat` is nonempty (the only way the code
calls it). -/
def pyReplaceAux (pat rep : List Char) : Nat → List Char → List Char
  | 0, l => l
  | _fuel + 1, [] => []
  | fuel + 1, c :: cs =>
    if pat.isPrefixOf (c :: cs) then rep ++ pyReplaceAux pat rep fuel ((c :: cs).drop pat.length)
    else c :: pyReplaceAux pat rep fuel cs

/-- Model of Python `s.replace(pat, rep)` for nonempty `pat`. -/
def pyReplace (s pat rep : String) : String :=
  ⟨pyReplaceAux pat.data rep.data s.data.length s.data⟩

/-- Splitting accumulator loop: splits a character list at every occurrence of
the separator character, keeping empty segments (Python `str.split(sep)`
semantics for a one-character separator). -/
def pySplitCharAux (sep : Char) : List Char → List Char → List (List Char)
  | [], acc => [acc.reverse]
  | c :: cs, acc =>
    if c = sep then acc.reverse :: pySplitCharAux sep cs []
    else pySplitCharAux sep cs (c :: acc)

/-- Model of Python `s.split(sep)` for a one-character separator `sep`
(the code only splits on `'-'` and `':'`). -/
def pySplit (s : String) (sep : Char) : List String :=
  (pySplitCharAux sep s.data []).map String.mk

/-- Joins segments back with `':'` separators (used to model the
`maxsplit` form of `str.split`). -/
def joinColon : List String → String
  | [] => ""
  | [x] => x
  | x :: xs => x ++ ":" ++ joinColon xs

/-- Model of Python `s.split(':', 3)`: at most three splits, so at most four
parts; any colons beyond the third stay inside the last part. -/
def pySplitColon3 (s : String) : List String :=
  let ps := pySplit s ':'
  if ps.length ≤ 4 then ps else ps.take 3 ++ [joinColon (ps.drop 3)]

/-- Decimal-accumulator loop for `int(...)`. -/
def digitsValAux (acc : Nat) : List Char → Nat
  | [] => acc
  | c :: cs => digitsValAux (acc * 10 + (c.toNat - '0'.toNat)) cs

/-- Model of Python `int(s)` restricted to the strings that reach it here:
segments of a `Range` header, which contain no `'-'`.  Plain digit strings
convert; anything else raises `ValueError`, modelled as `none`.  (Python also
accepts sign characters, surrounding whitespace and `_` separators; those
forms are all equally non-digit segments for the claims proved below.) -/
def pyInt (s : String) : Option Int :=
  if s.data ≠ [] ∧ s.data.all Char.isDigit then some (Int.ofNat (digitsValAux 0 s.data))
  else none

/-- Model of `os.path.join(a, b)` for two POSIX path components, as in
CPython `posixpath.join`: an absolute second component discards the first. -/
def osPathJoin (a b : String) : String :=
  if b.data.head? = some '/' then b
  else if a = "" ∨ a.data.getLast? = some '/' then a ++ b
  else a ++ "/" ++ b

/-! ### Range streaming (`app.py`, `stream_file` / `get_document`) -/

/-- Catalog file record as consumed by the streaming endpoints: the stored
relative path and the media-kind flags (`db.get_file_by_id` result fields). -/
structure FileRecord where
  file_path : String
  is_video : Bool
  is_document : Bool
deriving DecidableEq

/-- HTTP response: status, body bytes, and the response headers in the order
`response.headers.add` was called. -/
structure StreamResponse where
  status : Nat
  body : List Nat
  headers : List (String × String)
deriving DecidableEq

/-- Outcome of a handler: a JSON-error response with a status code, a
successful streaming response, or an unhandled Python exception (which Flask
turns into a 500). -/
inductive HttpResult where
  | err (status : Nat) (message : String)
  | ok (resp : StreamResponse)
  | exn
deriving DecidableEq

/-- Chunk size used by the streaming generator (`CHUNK_SIZE = 1024 * 1024`). -/
def CHUNK_SIZE : Nat := 1024 * 1024

/-- Loop of the `generate()` body of `stream_file`: starting at `pos`
(after `seek(byte_start)`), repeatedly `read(min(CHUNK_SIZE, remaining))`,
stopping when `remaining` is exhausted or the read returns no data (EOF).
Each pass subtracts the (positive) number of bytes actually read from
`remaining`, so `remaining` itself bounds the number of iterations; it is
used as structural fuel to keep the definition kernel-computable. -/
def readChunksAux (file : List Nat) : Nat → Nat → Nat → List Nat
  | 0, _, _ => []
  | fuel + 1, pos, remaining =>
    if remaining = 0 then []
    else if ((file.drop pos).take (min CHUNK_SIZE remaining)) = [] then []
    else
      ((file.drop pos).take (min CHUNK_SIZE remaining)) ++
        readChunksAux file fuel (pos + ((file.drop pos).take (min CHUNK_SIZE remaining)).length)
          (remaining - ((file.drop pos).take (min CHUNK_SIZE remaining)).length)

/-- Model of the `generate()` body of `stream_file`: stream the file from
offset `pos`, delivering at most `remaining` bytes in 1 MiB chunks.
`remaining` starts at `length`; the Python loop runs only while it is
positive, so the natural number `max length 0` is the exact byte budget. -/
def readChunks (file : List Nat) (pos remaining : Nat) : List Nat :=
  readChunksAux file remaining pos remaining

/-- Model of the range-header parsing of `stream_file` (app.py lines 323-326):
`range_match = range_header.replace('bytes=', '').split('-')`,
`byte_start = int(range_match[0]) if range_match[0] else 0`,
`byte_end = int(range_match[1]) if len(range_match) > 1 and range_match[1] else file_size - 1`.
`none` models an uncaught `ValueError` from `int`. -/
def parseRangePair (h : String) (file_size : Nat) : Option (Int × Int) :=
  let range_match := pySplit (pyReplace h "bytes=" "") '-'
  let p0 := range_match.headD ""
  match (if p0 = "" then some (0 : Int) else pyInt p0) with
  | none => none
  | some byte_start =>
    let p1 := range_match.getD 1 ""
    if 1 < range_match.length ∧ p1 ≠ "" then
      match pyInt p1 with
      | none => none
      | some byte_end => some (byte_start, byte_end)
    else some (byte_start, (file_size : Int) - 1)

/-- Headers attached to every streaming response, in `headers.add` order
(app.py lines 344-347). -/
def streamHeaders (byte_start byte_end : Int) (file_size : Nat) (length : Int) :
    List (String × String) :=
  [("Content-Range",
     "bytes " ++ toString byte_start ++ "-" ++ toString byte_end ++ "/" ++ toString file_size),
   ("Accept-Ranges", "bytes"),
   ("Content-Length", toString length),
   ("Cache-Control", "public, max-age=3600")]

/-- Model of `stream_file` (app.py lines 305-349), after the authentication
step has succeeded.  Parameters: the configured media root `mediaPath`
(`Config.MEDIA_PATH`), the on-disk filesystem `fs` (path to byte contents,
`none` when `os.path.exists` is false), the catalog lookup result `file`,
and the request's `Range` header (`none` when absent).  Python's
`if range_header:` truthiness makes an empty header string behave like an
absent one. -/
def stream_file (mediaPath : String) (fs : String → Option (List Nat))
    (file : Option FileRecord) (rangeHeader : Option String) : HttpResult :=
  match file with
  | none => .err 404 "Video file not found"
  | some f =>
    if f.is_video = false then .err 404 "Video file not found"
    else
      let video_path := osPathJoin mediaPath f.file_path
      match fs video_path with
      | none => .err 404 "Video file not found on disk"
      | some bytes =>
        let file_size := bytes.length
        let hasRange := rangeHeader.getD "" ≠ ""
        let parsed : Option (Int × Int) :=
          if hasRange then parseRangePair (rangeHeader.getD "") file_size
          else some (0, (file_size : Int) - 1)
        match parsed with
        | none => .exn
        | some (byte_start, byte_end) =>
          let length := byte_end - byte_start + 1
          .ok { status := if hasRange then 206 else 200,
                body := readChunks bytes byte_start.toNat length.toNat,
                headers := streamHeaders byte_start byte_end file_size length }

/-- Model of `get_document` (app.py lines 351-367), after authentication:
resolves the path exactly like `stream_file` and serves the whole file with
`send_file` (status 200; the sniffed content type is not modelled). -/
def get_document (mediaPath : String) (fs : String → Option (List Nat))
    (file : Option FileRecord) : HttpResult :=
  match file with
  | none => .err 404 "Document not found"
  | some f =>
    if f.is_document = false then .err 404 "Document not found"
    else
      let file_path := osPathJoin mediaPath f.file_path
      match fs file_path with
      | none => .err 404 "Document file not found on disk"
      | some bytes => .ok { status := 200, body := bytes, headers := [] }

/-- A resolved path lies under the media root iff it is the root itself or a
descendant of it; `underMediaRoot root p = false` formalises the spec's
"resolved path escapes that root". -/
def underMediaRoot (mediaPath resolved : String) : Bool :=
  (resolved == mediaPath) || ((mediaPath ++ "/").data).isPrefixOf resolved.data

/-! ### Signed URLs (`url_signer.py`)

`generate_signed_url` and `verify_signed_url` sign / check the message
`f"{file_id}:{expiration}"` with `hmac.new(secret, msg, sha256).hexdigest()`.
The HMAC-SHA256 keyed hash lives in the Python standard library, outside
this repository; it is modelled as an explicit function parameter `mac`
(the secret `Config.URL_SIGNING_SECRET` is fixed at startup, so the key is
baked into `mac`).  Its cryptographic collision resistance enters the
round-trip theorem as an injectivity hypothesis on `mac`. -/

/-- Model of `hmac.compare_digest` on two hex-digest strings: equality (the
constant-time execution profile has no value-level content). -/
def compare_digest (a b : String) : Bool := a == b

/-- Model of `generate_signed_url` (url_signer.py lines 11-38): signs
`file_id ++ ":" ++ expiration` where `expiration = int(time.time()) +
expiration_seconds`; returns `(signature, expiration)`. -/
def generate_signed_url (mac : String → String) (file_id : String)
    (now expiration_seconds : Int) : String × Int :=
  let expiration := now + expiration_seconds
  let message := file_id ++ ":" ++ toString expiration
  (mac message, expiration)

/-- Model of `verify_signed_url` (url_signer.py lines 41-73): returns false
immediately when `now > expiration`, otherwise recomputes the expected
signature and compares with `compare_digest`. -/
def verify_signed_url (mac : String → String) (file_id signature : String)
    (expiration now : Int) : Bool :=
  if now > expiration then false
  else
    let message := file_id ++ ":" ++ toString expiration
    let expected_signature := mac message
    compare_digest signature expected_signature

/-! ### Progress write path (`app.py`, `update_progress_endpoint`) -/

/-- Argument record of a durable progress write
(`update_file_progress` / `update_user_progress` keyword arguments). -/
structure ProgressWrite where
  user_id : String
  file_id : String
  lesson_id : Option String
  course_id : Option String
  progress_seconds : Int
  progress_percentage : Int
  completed : Bool
deriving DecidableEq

/-- The `progress_data` dict cached by the write path: a `ProgressWrite`
plus the `last_updated` timestamp `int(time.time())`. -/
structure ProgressData where
  user_id : String
  file_id : String
  lesson_id : Option String
  course_id : Option String
  progress_seconds : Int
  progress_percentage : Int
  completed : Bool
  last_updated : Int
deriving DecidableEq

/-- Values the write path stores in the cache: the progress dict, or the
literal `True` of a dirty marker. -/
inductive CacheWriteValue where
  | progressEntry (d : ProgressData)
  | dirtyTrue
deriving DecidableEq

/-- Externally visible effect of one step of the progress write path, in
program order.  `pgUpdateFileProgress w ok` is the best-effort
`postgres_db.update_file_progress` attempt inside `try/except` (`ok` records
whether it succeeded; failure is only logged).  `cacheSet` is
`cache.set(key, value, ttl)`.  `updateUserProgress` is the direct
`db.update_user_progress` fallback write. -/
inductive WriteAction where
  | pgUpdateFileProgress (w : ProgressWrite) (ok : Bool)
  | cacheSet (key : String) (v : CacheWriteValue) (ttl : Nat)
  | updateUserProgress (w : ProgressWrite)
deriving DecidableEq

/-- Fields of the catalog record consumed by the write path
(`file_info.get('lesson_id')` / `file_info.get('course_id')`). -/
structure FileInfo where
  lesson_id : Option String
  course_id : Option String
deriving DecidableEq

/-- HTTP outcome of the progress endpoint: `jsonify({'success': True})`,
the 404 `File not found` error, or an unhandled exception (Flask 500). -/
inductive ProgressResponse where
  | success
  | fileNotFound
  | exn
deriving DecidableEq

/-- Model of `update_progress_endpoint` (app.py lines 384-458).  Inputs that
come from collaborators are explicit: `file_info` is the
`db.get_file_by_id(file_id)` result, `cacheEnabled` is `cache.enabled`,
`pgWriteOk` is whether the best-effort PostgreSQL write raises (it is
caught and logged either way), `adapterWriteOk` is whether the uncaught
direct `db.update_user_progress` fallback raises, and `now` is
`int(time.time())`.  The returned list is the trace of externally visible
writes in program order. -/
def update_progress_endpoint (file_info : Option FileInfo)
    (cacheEnabled pgWriteOk adapterWriteOk : Bool)
    (user_id file_id : String) (progress_seconds progress_percentage : Int)
    (completed : Bool) (now : Int) : ProgressResponse × List WriteAction :=
  match file_info with
  | none => (.fileNotFound, [])
  | some fi =>
    let w : ProgressWrite :=
      ⟨user_id, file_id, fi.lesson_id, fi.course_id,
       progress_seconds, progress_percentage, completed⟩
    let progress_data : ProgressData :=
      ⟨user_id, file_id, fi.lesson_id, fi.course_id,
       progress_seconds, progress_percentage, completed, now⟩
    let cache_key := "progress:" ++ user_id ++ ":" ++ file_id
    let dirty_key := "progress:dirty:" ++ user_id ++ ":" ++ file_id
    if cacheEnabled then
      (.success,
       [.pgUpdateFileProgress w pgWriteOk,
        .cacheSet cache_key (.progressEntry progress_data) 86400,
        .cacheSet dirty_key .dirtyTrue 86400])
    else
      if adapterWriteOk then
        (.success, [.pgUpdateFileProgress w pgWriteOk, .updateUserProgress w])
      else
        (.exn, [.pgUpdateFileProgress w pgWriteOk, .updateUserProgress w])

/-! ### Progress read path (`app.py`, `get_file_progress_endpoint`) -/

/-- Externally visible cache effect of the read path: the write-through
`cache.set(cache_key, progress, ttl=86400)` executed when a lower tier
supplied the value.  `V` is the (opaque) progress-record payload type. -/
inductive ReadAction (V : Type) where
  | cacheSet (key : String) (v : V) (ttl : Nat)
deriving DecidableEq

/-- Model of `get_file_progress_endpoint` (app.py lines 460-498).  Tier
results are explicit inputs: `cacheVal` is `cache.get(cache_key)` (already
`none` on a miss or a swallowed cache error), `pgResult` is the PostgreSQL
lookup (`Except.error ()` models a raised exception, `Except.ok none` a
missing/falsy row), `fbVal` the legacy Firebase fallback lookup.  The first
component of the result is the JSON payload: `some v` a found progress
record, `none` the empty default `{}`. -/
def get_file_progress_endpoint {V : Type} (cacheEnabled : Bool)
    (cacheVal : Option V) (pgResult : Except Unit (Option V)) (fbVal : Option V)
    (user_id file_id : String) : Option V × List (ReadAction V) :=
  let cache_key := "progress:" ++ user_id ++ ":" ++ file_id
  match (if cacheEnabled then cacheVal else none) with
  | some v => (some v, [])
  | none =>
    match pgResult with
    | .ok (some v) =>
      (some v, if cacheEnabled then [.cacheSet cache_key v 86400] else [])
    | _ =>
      match fbVal with
      | some v =>
        (some v, if cacheEnabled then [.cacheSet cache_key v 86400] else [])
      | none => (none, [])

/-! ### Progress sync worker (`progress_sync_worker.py`, `_sync_dirty_progress`) -/

/-- Aggregate outcome of one sync cycle over the dirty keys: the samples
durably written (in processing order), the dirty markers deleted, and the
`synced_count` / `failed_count` totals the worker logs. -/
structure SyncResult where
  written : List ProgressData
  deleted : List String
  synced : Nat
  failed : Nat
deriving DecidableEq

/-- Model of the expression `dirty_key.decode('utf-8')`
(progress_sync_worker.py lines 92, 107 and 122).  The worker's cache client
is the `CacheService` redis client, constructed with
`decode_responses=True` (cache_service.py lines 30-37), so
`redis_client.keys("progress:dirty:*")` returns Python 3 `str` values — and
`str` has no `decode` method, so the attribute lookup raises
`AttributeError` on every key.  That raise is modelled as `none`; there is
no input on which the call succeeds. -/
def pyStrDecode (_dirty_key : String) : Option String := none

/-- Model of the per-key loop of `ProgressSyncWorker._sync_dirty_progress`
(progress_sync_worker.py lines 88-129) over the `progress:dirty:*` key list.
`cacheGet` is `cache.get` (already `none` on miss or swallowed error);
`writeOk d` tells whether the `db.update_user_progress` call for sample `d`
succeeds.  Each key is processed inside `try/except`: any raise is counted
in `failed_count` and processing moves to the next key.  The body first
evaluates `dirty_key.decode('utf-8')` — which raises `AttributeError` for
the `str` keys this redis client returns (see `pyStrDecode`) — then splits
the key, fetches the cached sample (deleting the stale marker via another
`decode` call when the sample is missing), writes the sample durably and
deletes the marker via a third `decode` call before `synced_count` is
incremented.  Deleting a marker is recorded in `deleted`; a completed
durable write is recorded in `written`. -/
def sync_dirty_progress (cacheGet : String → Option ProgressData)
    (writeOk : ProgressData → Bool) : List String → SyncResult
  | [] => ⟨[], [], 0, 0⟩
  | dirty_key :: rest =>
    let r := sync_dirty_progress cacheGet writeOk rest
    match pyStrDecode dirty_key with
    | none => ⟨r.written, r.deleted, r.synced, r.failed + 1⟩
    | some decoded =>
      let parts := pySplitColon3 decoded
      if parts.length = 4 then
        let user_id := parts.getD 2 ""
        let file_id := parts.getD 3 ""
        let progress_key := "progress:" ++ user_id ++ ":" ++ file_id
        match cacheGet progress_key with
        | none =>
          match pyStrDecode dirty_key with
          | none => ⟨r.written, r.deleted, r.synced, r.failed + 1⟩
          | some stale => ⟨r.written, stale :: r.deleted, r.synced, r.failed⟩
        | some progress_data =>
          if writeOk progress_data then
            match pyStrDecode dirty_key with
            | none =>
              ⟨progress_data :: r.written, r.deleted, r.synced, r.failed + 1⟩
            | some done =>
              ⟨progress_data :: r.written, done :: r.deleted,
               r.synced + 1, r.failed⟩
          else
            ⟨r.written, r.deleted, r.synced, r.failed + 1⟩
      else r

/-! ### Concrete fixtures used by the witness and counterexample theorems -/

/-- Five-byte demo video file. -/
def demoBytes : List Nat := [10, 20, 30, 40, 50]

/-- Demo filesystem: exactly one file, at `/m/v.mp4`. -/
def demoFs : String → Option (List Nat) :=
  fun p => if p = "/m/v.mp4" then some demoBytes else none

/-- Demo catalog video record with a root-relative stored path. -/
def demoRec : FileRecord := ⟨"v.mp4", true, false⟩

/-- Ten-byte demo video file with recognisable byte values. -/
def tenBytes : List Nat := [100, 101, 102, 103, 104, 105, 106, 107, 108, 109]

/-- Filesystem holding `tenBytes` at `/m/v.mp4`. -/
def tenFs : String → Option (List Nat) :=
  fun p => if p = "/m/v.mp4" then some tenBytes else none

/-- Filesystem for the path-escape scenario: a secret file outside the
media root `/media`. -/
def escapeFs : String → Option (List Nat) :=
  fun p => if p = "/etc/secret" then some [1, 2, 3] else none

/-- Catalog video record whose stored path is absolute, so
`os.path.join('/media', ...)` resolves outside the media root. -/
def escapeVideoRec : FileRecord := ⟨"/etc/secret", true, false⟩

/-- Catalog document record with the same escaping stored path. -/
def escapeDocRec : FileRecord := ⟨"/etc/secret", false, true⟩

/-- Demo cached progress sample for user `u1`, file `f1`. -/
def demoData1 : ProgressData := ⟨"u1", "f1", some "l1", some "c1", 120, 50, false, 1111⟩

/-- Demo cached progress sample for user `u2`, file `f2`. -/
def demoData2 : ProgressData := ⟨"u2", "f2", some "l2", some "c2", 30, 10, false, 2222⟩

/-- Demo cache contents for the sync-worker witness: samples for
`(u1,f1)` and `(u2,f2)`, nothing else. -/
def demoCacheGet : String → Option ProgressData :=
  fun key =>
    if key = "progress:u1:f1" then some demoData1
    else if key = "progress:u2:f2" then some demoData2
    else none

/-- Demo durable-store behaviour for the sync-worker witness: the write
succeeds exactly for `u1`'s sample. -/
def demoWriteOk : ProgressData → Bool := fun d => d.user_id == "u1"

/-- The response `stream_file` produces for the five-byte demo file when no
`Range` header is present. -/
def c4Response : StreamResponse :=
  { status := 200, body := demoBytes,
    headers := [("Content-Range", "bytes 0-4/5"),
                ("Accept-Ranges", "bytes"),
                ("Content-Length", "5"),
                ("Cache-Control", "public, max-age=3600")] }

/-! ### Helper lemmas -/

/-- The chunked read loop, given enough fuel, returns exactly the
`remaining`-byte slice of the file starting at `pos`. -/
theorem readChunksAux_eq (file : List Nat) (fuel pos remaining : Nat)
    (hf : remaining ≤ fuel) :
    readChunksAux file fuel pos remaining = (file.drop pos).take remaining := by
  induction fuel generalizing pos remaining with
  | zero =>
    have h0 : remaining = 0 := by omega
    subst h0
    simp [readChunksAux]
  | succ fuel ih =>
    rw [readChunksAux]
    by_cases h0 : remaining = 0
    · simp [h0]
    · simp only [h0, if_false]
      by_cases h1 : ((file.drop pos).take (min CHUNK_SIZE remaining)) = []
      · have hnil : file.drop pos = [] := by
          rcases List.take_eq_nil_iff.mp h1 with h | h
          · exfalso
            have hc : CHUNK_SIZE ≠ 0 := by decide
            simp only [Nat.min_eq_zero_iff] at h
            omega
          · exact h
        simp [h1, hnil]
      · simp only [h1, if_false]
        set l := file.drop pos with hl
        set d := (l.take (min CHUNK_SIZE remaining)).length with hd
        have hdpos : 0 < d := List.length_pos.mpr h1
        have hdle : d ≤ min CHUNK_SIZE remaining := by
          rw [hd, List.length_take]
          exact min_le_left _ _
        have hdr : d ≤ remaining := le_trans hdle (min_le_right _ _)
        rw [ih (pos + d) (remaining - d) (by omega)]
        have hdrop : file.drop (pos + d) = l.drop d := by
          rw [hl, List.drop_drop]
        rw [hdrop]
        have htake : l.take (min CHUNK_SIZE remaining) = l.take d := by
          rw [List.take_eq_take]
          have := List.length_take (min CHUNK_SIZE remaining) l
          omega
        rw [htake, ← List.take_add]
        congr 1
        omega

/-- The streaming generator delivers exactly the requested slice of the
file: `remaining` bytes starting at offset `pos`, truncated at EOF. -/
theorem readChunks_eq (file : List Nat) (pos remaining : Nat) :
    readChunks file pos remaining = (file.drop pos).take remaining :=
  readChunksAux_eq file remaining pos remaining le_rfl

/-- Printing a natural number through the `Int` coercion agrees with
printing it as a natural number (Python `str`). -/
theorem toString_intCast (n : Nat) : toString ((n : Int)) = toString n := rfl

/-! ### Claim theorems -/

/-- C1: for every file of total size `S` and every range request parsing to
`(start, end)` with `0 ≤ start ≤ end ≤ S-1`, `stream_file` returns status
206, a body of exactly `end - start + 1` bytes taken from offsets
`start..end` of the file, a `Content-Range` header equal to
`bytes {start}-{end}/{S}`, an `Accept-Ranges: bytes` header and a
`Content-Length` header equal to `end - start + 1`. -/
theorem C1_valid_range_partial_content
    (mediaPath : String) (fs : String → Option (List Nat)) (frec : FileRecord)
    (bytes : List Nat) (h : String) (start fin : Nat)
    (hvid : frec.is_video = true)
    (hfs : fs (osPathJoin mediaPath frec.file_path) = some bytes)
    (hne : h ≠ "")
    (hparse : parseRangePair h bytes.length = some ((start : Int), (fin : Int)))
    (hse : start ≤ fin) (hfin : fin < bytes.length) :
    stream_file mediaPath fs (some frec) (some h) =
      .ok { status := 206,
            body := (bytes.drop start).take (fin - start + 1),
            headers :=
              [("Content-Range",
                 "bytes " ++ toString start ++ "-" ++ toString fin ++ "/" ++
                   toString bytes.length),
               ("Accept-Ranges", "bytes"),
               ("Content-Length", toString (fin - start + 1)),
               ("Cache-Control", "public, max-age=3600")] }
    ∧ ((bytes.drop start).take (fin - start + 1)).length = fin - start + 1 := by
  constructor
  · simp only [stream_file, hvid, hfs, Option.getD_some]
    rw [if_neg (by simp)]
    rw [if_pos hne, hparse]
    simp only
    have h1 : ((start : Int)).toNat = start := Int.toNat_natCast start
    have h2 : (((fin : Int)) - ((start : Int)) + 1).toNat = fin - start + 1 := by omega
    have h3 : (((fin : Int)) - ((start : Int)) + 1) = ((fin - start + 1 : Nat) : Int) := by
      omega
    rw [if_pos hne, h1, h2, readChunks_eq]
    simp only [streamHeaders, h3, toString_intCast]
  · have hlen := List.length_take (fin - start + 1) (bytes.drop start)
    have hdrop := List.length_drop start bytes
    omega

/-- Witness for C1: a five-byte file and the request `Range: bytes=1-3`
yield a 206 with exactly bytes 1..3 and the specified headers. -/
theorem C1_valid_range_partial_content_witness :
    parseRangePair "bytes=1-3" 5 = some (1, 3) ∧
    stream_file "/m" demoFs (some demoRec) (some "bytes=1-3") =
      .ok { status := 206, body := [20, 30, 40],
            headers := [("Content-Range", "bytes 1-3/5"),
                        ("Accept-Ranges", "bytes"),
                        ("Content-Length", "3"),
                        ("Cache-Control", "public, max-age=3600")] } := by
  constructor
  · decide
  · have hm := C1_valid_range_partial_content "/m" demoFs demoRec demoBytes
      "bytes=1-3" 1 3 (by decide) (by decide) (by decide) (by decide)
      (by decide) (by decide)
    rw [hm.1]
    decide

/-- C2: the claim says a resolved on-disk path that escapes the media root
is refused.  The code performs no containment check: `os.path.join` with an
absolute stored path simply discards the media root, the existence check
passes, and both the streaming and the document endpoint serve the file's
bytes.  Here the record's `file_path` is `/etc/secret`, the join resolves to
`/etc/secret`, which is outside `/media`, yet the full byte content is
returned with a success status. -/
theorem C2_path_escape_bytes_served :
    osPathJoin "/media" escapeVideoRec.file_path = "/etc/secret"
    ∧ underMediaRoot "/media" (osPathJoin "/media" escapeVideoRec.file_path) = false
    ∧ stream_file "/media" escapeFs (some escapeVideoRec) none =
        .ok { status := 200, body := [1, 2, 3],
              headers := [("Content-Range", "bytes 0-2/3"),
                          ("Accept-Ranges", "bytes"),
                          ("Content-Length", "3"),
                          ("Cache-Control", "public, max-age=3600")] }
    ∧ get_document "/media" escapeFs (some escapeDocRec) =
        .ok { status := 200, body := [1, 2, 3], headers := [] } := by
  refine ⟨by decide, by decide, by decide, by decide⟩

/-- C3: the claim says malformed or out-of-bounds ranges yield a
RangeNotSatisfiable (416-class) failure and never a 200/206.  The code has
no such path: for a 10-byte file, `Range: bytes=10-` (start = S) is served
as a 206 with an empty body, a nonsensical `Content-Range: bytes 10-9/10`
and `Content-Length: 0`; a non-numeric start (`bytes=abc-2`) raises an
uncaught `ValueError` inside `int(...)`, surfacing as a 500, not a 416. -/
theorem C3_unsatisfiable_range_not_refused :
    tenBytes.length = 10
    ∧ stream_file "/m" tenFs (some demoRec) (some "bytes=10-") =
        .ok { status := 206, body := [],
              headers := [("Content-Range", "bytes 10-9/10"),
                          ("Accept-Ranges", "bytes"),
                          ("Content-Length", "0"),
                          ("Cache-Control", "public, max-age=3600")] }
    ∧ stream_file "/m" tenFs (some demoRec) (some "bytes=abc-2") = .exn := by
  refine ⟨by decide, by decide, by decide⟩

/-- C4 counterexample: the claim says a request without a `Range` header
gets a response with no `Content-Range` header.  The code adds
`Content-Range` unconditionally: for the five-byte demo file the 200
response carries `Content-Range: bytes 0-4/5`. -/
theorem C4_counterexample_content_range_present :
    stream_file "/m" demoFs (some demoRec) none = .ok c4Response
    ∧ ("Content-Range", "bytes 0-4/5") ∈ c4Response.headers := by
  refine ⟨by decide, by decide⟩

/-- C4 (amended): for every streaming request without a `Range` header, the
response has status 200, delivers the full `S` bytes of the file, and
carries `Accept-Ranges: bytes` and `Content-Length: S` — together with a
`Content-Range: bytes 0-{S-1}/{S}` header, which the code adds even to
full-content responses. -/
theorem C4_no_range_full_content_amended
    (mediaPath : String) (fs : String → Option (List Nat)) (frec : FileRecord)
    (bytes : List Nat)
    (hvid : frec.is_video = true)
    (hfs : fs (osPathJoin mediaPath frec.file_path) = some bytes) :
    stream_file mediaPath fs (some frec) none =
      .ok { status := 200,
            body := bytes,
            headers :=
              [("Content-Range",
                 "bytes 0-" ++ toString ((bytes.length : Int) - 1) ++ "/" ++
                   toString bytes.length),
               ("Accept-Ranges", "bytes"),
               ("Content-Length", toString bytes.length),
               ("Cache-Control", "public, max-age=3600")] } := by
  simp only [stream_file, hvid, hfs, Option.getD_none]
  rw [if_neg (by simp)]
  rw [if_neg (by simp), if_neg (by simp)]
  have h2 : (((bytes.length : Int)) - 1 - 0 + 1).toNat = bytes.length := by omega
  have h3 : (((bytes.length : Int)) - 1 - 0 + 1) = ((bytes.length : Nat) : Int) := by omega
  simp only [h2, h3, readChunks_eq, Int.toNat_zero, Int.toNat_natCast, List.drop_zero,
    List.take_length, streamHeaders, toString_intCast]
  rfl

/-- Witness for the amended C4: the five-byte demo file without a `Range`
header yields a 200 carrying all five bytes and the four headers. -/
theorem C4_no_range_full_content_amended_witness :
    stream_file "/m" demoFs (some demoRec) none =
      .ok { status := 200, body := demoBytes,
            headers := [("Content-Range", "bytes 0-4/5"),
                        ("Accept-Ranges", "bytes"),
                        ("Content-Length", "5"),
                        ("Cache-Control", "public, max-age=3600")] } := by
  have hm := C4_no_range_full_content_amended "/m" demoFs demoRec demoBytes
    (by decide) (by decide)
  rw [hm]
  decide

/-- C8: the claim says the suffix form `bytes=-N` serves the last `N` bytes
(offsets `S-N .. S-1`).  The code's parse (`replace('bytes=','').split('-')`)
turns `-3` into segments `['', '3']`, so `byte_start` falls back to 0 and
`byte_end` becomes 3: the request is served as `bytes=0-3`, i.e. the FIRST
four bytes, not the last three.  For the ten-byte demo file the body is
offsets 0..3, which differs from the last-three-byte slice. -/
theorem C8_suffix_range_serves_leading_bytes :
    stream_file "/m" tenFs (some demoRec) (some "bytes=-3") =
      .ok { status := 206, body := [100, 101, 102, 103],
            headers := [("Content-Range", "bytes 0-3/10"),
                        ("Accept-Ranges", "bytes"),
                        ("Content-Length", "4"),
                        ("Cache-Control", "public, max-age=3600")] }
    ∧ tenBytes.drop 7 = [107, 108, 109]
    ∧ [100, 101, 102, 103] ≠ tenBytes.drop 7 := by
  refine ⟨by decide, by decide, by decide⟩

/-- Appending the same suffix to two strings preserves distinctness. -/
theorem string_append_right_cancel {a b c : String} (h : a ++ c = b ++ c) : a = b := by
  have hd : a.data ++ c.data = b.data ++ c.data := by
    have hc := congrArg String.data h
    simpa [String.data_append] using hc
  have hab : a.data = b.data := List.append_cancel_right hd
  cases a
  cases b
  exact congrArg String.mk hab

/-- C5: capability round trip.  With the keyed HMAC-SHA256 abstracted as a
function `mac` (collision resistance idealised as injectivity), verifying
the `(signature, expiresAt)` pair produced by `generate_signed_url` for a
`file_id` succeeds at any time `now ≤ expiresAt`, fails at any time
`now > expiresAt`, and fails whenever the supplied signature or the
supplied `file_id` differs from the issued values. -/
theorem C5_capability_round_trip
    (mac : String → String) (mac_inj : Function.Injective mac)
    (file_id fid2 sig2 : String) (now ttl now2 : Int) :
    (now2 ≤ (generate_signed_url mac file_id now ttl).2 →
      verify_signed_url mac file_id (generate_signed_url mac file_id now ttl).1
        (generate_signed_url mac file_id now ttl).2 now2 = true)
    ∧ (now2 > (generate_signed_url mac file_id now ttl).2 →
      verify_signed_url mac fid2 sig2
        (generate_signed_url mac file_id now ttl).2 now2 = false)
    ∧ (sig2 ≠ (generate_signed_url mac file_id now ttl).1 →
      verify_signed_url mac file_id sig2
        (generate_signed_url mac file_id now ttl).2 now2 = false)
    ∧ (fid2 ≠ file_id →
      verify_signed_url mac fid2 (generate_signed_url mac file_id now ttl).1
        (generate_signed_url mac file_id now ttl).2 now2 = false) := by
  simp only [generate_signed_url, verify_signed_url, compare_digest]
  refine ⟨?_, ?_, ?_, ?_⟩
  · intro hle
    rw [if_neg (by omega)]
    simp
  · intro hgt
    rw [if_pos (by omega)]
  · intro hsig
    by_cases hc : now2 > now + ttl
    · rw [if_pos hc]
    · rw [if_neg hc]
      simpa using hsig
  · intro hfid
    by_cases hc : now2 > now + ttl
    · rw [if_pos hc]
    · rw [if_neg hc]
      have hmsg : mac (file_id ++ ":" ++ toString (now + ttl)) ≠
          mac (fid2 ++ ":" ++ toString (now + ttl)) := by
        intro he
        have hm := mac_inj he
        have h1 : file_id ++ ":" = fid2 ++ ":" := string_append_right_cancel hm
        have h2 : file_id = fid2 := string_append_right_cancel h1
        exact hfid h2.symm
      simpa using hmsg

/-- Witness for C5: with `mac = id` (injective), a capability issued for
`f1` at time 100 with TTL 3600 verifies at time 3700, fails at 3701, fails
for a tampered signature, and fails for a different file id. -/
theorem C5_capability_round_trip_witness :
    verify_signed_url id "f1" (generate_signed_url id "f1" 100 3600).1
      (generate_signed_url id "f1" 100 3600).2 3700 = true
    ∧ verify_signed_url id "f2" "junk"
      (generate_signed_url id "f1" 100 3600).2 3701 = false
    ∧ verify_signed_url id "f1" "junk"
      (generate_signed_url id "f1" 100 3600).2 100 = false
    ∧ verify_signed_url id "f2" (generate_signed_url id "f1" 100 3600).1
      (generate_signed_url id "f1" 100 3600).2 100 = false := by
  refine
    ⟨(C5_capability_round_trip id (fun _ _ hab => hab) "f1" "f2" "junk" 100 3600 3700).1
       (by decide),
     (C5_capability_round_trip id (fun _ _ hab => hab) "f1" "f2" "junk" 100 3600 3701).2.1
       (by decide),
     (C5_capability_round_trip id (fun _ _ hab => hab) "f1" "f2" "junk" 100 3600 100).2.2.1
       (by decide),
     (C5_capability_round_trip id (fun _ _ hab => hab) "f1" "f2" "junk" 100 3600 100).2.2.2
       (by decide)⟩

/-- C6: for every accepted progress update (catalog record found), the write
path first attempts the best-effort durable write (recorded with its
success flag — the request continues either way), then if the cache is
enabled stores the progress sample and the dirty marker with 24h TTL; if
the cache is disabled it instead writes directly and synchronously to the
durable store's user-progress path; and the response is success-true for
both outcomes of the best-effort durable write (provided the only uncaught
call — the direct fallback write used when the cache is disabled — does not
itself raise). -/
theorem C6_progress_write_path
    (fi : FileInfo) (cacheEnabled pgWriteOk adapterWriteOk : Bool)
    (user_id file_id : String) (ps pp : Int) (completed : Bool) (now : Int)
    (hok : cacheEnabled = true ∨ adapterWriteOk = true) :
    update_progress_endpoint (some fi) cacheEnabled pgWriteOk adapterWriteOk
        user_id file_id ps pp completed now =
      (.success,
       .pgUpdateFileProgress
           ⟨user_id, file_id, fi.lesson_id, fi.course_id, ps, pp, completed⟩ pgWriteOk ::
         (if cacheEnabled then
            [.cacheSet ("progress:" ++ user_id ++ ":" ++ file_id)
               (.progressEntry
                 ⟨user_id, file_id, fi.lesson_id, fi.course_id, ps, pp, completed, now⟩)
               86400,
             .cacheSet ("progress:dirty:" ++ user_id ++ ":" ++ file_id) .dirtyTrue 86400]
          else
            [.updateUserProgress
               ⟨user_id, file_id, fi.lesson_id, fi.course_id, ps, pp, completed⟩])) := by
  cases cacheEnabled <;> cases adapterWriteOk <;>
    simp_all [update_progress_endpoint]

/-- Witness for C6: with the cache enabled and the best-effort durable
write failing (`pgWriteOk = false`), the request still succeeds and the
trace is the durable attempt followed by the two cache writes. -/
theorem C6_progress_write_path_witness :
    update_progress_endpoint (some ⟨some "l1", some "c1"⟩) true false true
        "u1" "f1" 120 50 false 1111 =
      (.success,
       [.pgUpdateFileProgress ⟨"u1", "f1", some "l1", some "c1", 120, 50, false⟩ false,
        .cacheSet "progress:u1:f1"
          (.progressEntry ⟨"u1", "f1", some "l1", some "c1", 120, 50, false, 1111⟩) 86400,
        .cacheSet "progress:dirty:u1:f1" .dirtyTrue 86400]) := by
  have hm := C6_progress_write_path ⟨some "l1", some "c1"⟩ true false true
    "u1" "f1" 120 50 false 1111 (Or.inl rfl)
  rw [hm]
  decide

/-- C10: a progress update whose `file_id` is not in the catalog returns the
404 `File not found` response and produces an empty effect trace: nothing
is written to the cache (no sample, no dirty marker) and nothing is written
to either durable store. -/
theorem C10_unknown_file_404_no_writes
    (cacheEnabled pgWriteOk adapterWriteOk : Bool) (user_id file_id : String)
    (ps pp : Int) (completed : Bool) (now : Int) :
    update_progress_endpoint none cacheEnabled pgWriteOk adapterWriteOk
      user_id file_id ps pp completed now = (.fileNotFound, []) := rfl

/-- C9: the progress read path takes the first tier that has the value, in
the fixed order cache, durable store, legacy fallback; when a lower tier
supplies the value and the cache is enabled the value is written back into
the cache (24h TTL); and when every tier misses the endpoint returns the
empty default payload, never an error. -/
theorem C9_progress_read_tiers {V : Type} (cacheEnabled : Bool)
    (cacheVal : Option V) (pgResult : Except Unit (Option V)) (fbVal : Option V)
    (user_id file_id : String) :
    (∀ v, cacheEnabled = true → cacheVal = some v →
      get_file_progress_endpoint cacheEnabled cacheVal pgResult fbVal user_id file_id
        = (some v, []))
    ∧ (∀ v, (cacheEnabled = false ∨ cacheVal = none) → pgResult = .ok (some v) →
      get_file_progress_endpoint cacheEnabled cacheVal pgResult fbVal user_id file_id
        = (some v,
           if cacheEnabled then
             [.cacheSet ("progress:" ++ user_id ++ ":" ++ file_id) v 86400]
           else []))
    ∧ (∀ v, (cacheEnabled = false ∨ cacheVal = none) →
        (pgResult = .ok none ∨ pgResult = .error ()) → fbVal = some v →
      get_file_progress_endpoint cacheEnabled cacheVal pgResult fbVal user_id file_id
        = (some v,
           if cacheEnabled then
             [.cacheSet ("progress:" ++ user_id ++ ":" ++ file_id) v 86400]
           else []))
    ∧ ((cacheEnabled = false ∨ cacheVal = none) →
        (pgResult = .ok none ∨ pgResult = .error ()) → fbVal = none →
      get_file_progress_endpoint cacheEnabled cacheVal pgResult fbVal user_id file_id
        = (none, [])) := by
  refine ⟨?_, ?_, ?_, ?_⟩
  · intro v hc hv
    simp [get_file_progress_endpoint, hc, hv]
  · intro v hmiss hpg
    rcases hmiss with h1 | h1 <;>
      simp [get_file_progress_endpoint, h1, hpg]
  · intro v hmiss hpg hfb
    rcases hmiss with h1 | h1 <;> rcases hpg with h2 | h2 <;>
      simp [get_file_progress_endpoint, h1, h2, hfb]
  · intro hmiss hpg hfb
    rcases hmiss with h1 | h1 <;> rcases hpg with h2 | h2 <;>
      simp [get_file_progress_endpoint, h1, h2, hfb]

/-- Witness for C9 (payloads are bare naturals): a cache hit returns
immediately with no write-back; a durable-store hit and a fallback hit each
return the value and write it back into the enabled cache; a miss
everywhere returns the empty default. -/
theorem C9_progress_read_tiers_witness :
    get_file_progress_endpoint true (some 7) (.ok (some 8)) (some 9) "u1" "f1"
      = (some 7, [])
    ∧ get_file_progress_endpoint true none (.ok (some 8)) (some 9) "u1" "f1"
      = (some 8, [.cacheSet "progress:u1:f1" 8 86400])
    ∧ get_file_progress_endpoint true none (.error ()) (some 9) "u1" "f1"
      = (some 9, [.cacheSet "progress:u1:f1" 9 86400])
    ∧ get_file_progress_endpoint true none (.ok (none : Option Nat)) none "u1" "f1"
      = (none, []) := by
  refine ⟨?_, ?_, ?_, ?_⟩
  · exact (C9_progress_read_tiers true (some 7) (.ok (some 8)) (some 9) "u1" "f1").1
      7 rfl rfl
  · have hm := (C9_progress_read_tiers true none (.ok (some 8)) (some 9) "u1" "f1").2.1
      8 (Or.inr rfl) rfl
    rw [hm]
    decide
  · have hm := (C9_progress_read_tiers true none (.error ()) (some 9) "u1" "f1").2.2.1
      9 (Or.inr rfl) (Or.inr rfl) rfl
    rw [hm]
    decide
  · exact (C9_progress_read_tiers true none (.ok (none : Option Nat)) none "u1" "f1").2.2.2
      (Or.inr rfl) (Or.inl rfl) rfl

/-- C7: the claim says a sync cycle deletes a stale marker when the cached
sample is gone, deletes the marker after a successful durable write, leaves
the marker in place on a failed write, and isolates individual failures.
The code fails every entry before any of that can happen:
`dirty_key.decode('utf-8')` (progress_sync_worker.py line 92) raises
`AttributeError` because the `decode_responses=True` redis client returns
`str` keys, and the per-entry `except` counts the entry as failed.  So a
cycle over any key list writes nothing, deletes no marker, syncs nothing
and counts every key as failed — shown in general, and concretely for a
marker whose cached sample is present and whose durable write would
succeed. -/
theorem C7_sync_worker_every_entry_fails :
    (∀ (cacheGet : String → Option ProgressData) (writeOk : ProgressData → Bool)
        (dirty_keys : List String),
      sync_dirty_progress cacheGet writeOk dirty_keys =
        ⟨[], [], 0, dirty_keys.length⟩)
    ∧ demoCacheGet "progress:u1:f1" = some demoData1
    ∧ demoWriteOk demoData1 = true
    ∧ sync_dirty_progress demoCacheGet demoWriteOk ["progress:dirty:u1:f1"] =
        ⟨[], [], 0, 1⟩ := by
  refine ⟨?_, by decide, by decide, by decide⟩
  intro cacheGet writeOk dirty_keys
  induction dirty_keys with
  | nil => rfl
  | cons k rest ih => simp [sync_dirty_progress, pyStrDecode, ih]

end StreamingService
